import Mathlib

/-!
# Verification of the d3-wind-barbs renderer

A shallow embedding of `src/d3-wind-barbs.ts` (class `D3WindBarb`): the
speed-to-segment-counts decomposer (`getBarbs`), the option merge
(`mergeOptions` / `DEFAULT_CONFIG`), and the shape-emitting drawing
methods (`drawCircle`, `drawBarbs`, `drawTriangles`, `drawFullBars`,
`drawHalfBars`, `draw`).

Numbers are modelled as rationals (`ℚ`); the effective-knots value
`Number((speed * conversionFactor).toFixed())` is modelled with
Mathlib's `round` (nearest integer, ties towards +∞, exactly the
ECMAScript `toFixed(0)` tie rule).  The `dims` record (`getSizes`),
which the source computes with floating-point `Math.sin`/`Math.cos`,
is passed as an explicit parameter: all verified claims are independent
of its numeric value.
-/

namespace WindBarbs

/-- The `Barbs` record of the source: `{ 50: number; 10: number; 5: number }`,
counts of pennants (50 kt), full bars (10 kt) and half bars (5 kt). -/
structure Barbs where
  c50 : ℕ
  c10 : ℕ
  c5 : ℕ
  deriving Repr, DecidableEq

/-- The `for (let k = knots; k > 0;)` loop of `D3WindBarb.getBarbs`:
subtract 50 while possible, else 10, else 5, else stop, incrementing the
matching counter each time. -/
def barbLoop : ℕ → Barbs → Barbs
  | k, acc =>
    if 50 ≤ k then barbLoop (k - 50) { acc with c50 := acc.c50 + 1 }
    else if 10 ≤ k then barbLoop (k - 10) { acc with c10 := acc.c10 + 1 }
    else if 5 ≤ k then barbLoop (k - 5) { acc with c5 := acc.c5 + 1 }
    else acc
  termination_by k _ => k
  decreasing_by all_goals omega

/-- `D3WindBarb.getBarbs` applied to the already-rounded knots value:
`undefined` (here `none`) when `knots < 5`, otherwise the loop's result
starting from `{50: 0, 10: 0, 5: 0}`. -/
def decompose (knots : ℤ) : Option Barbs :=
  if knots < 5 then none
  else some (barbLoop knots.toNat ⟨0, 0, 0⟩)

/-- `Number((this.speed * this.fullOptions.conversionFactor).toFixed())`:
round speed × factor to the nearest integer (ties towards +∞, the
`toFixed(0)` rule, which is Mathlib's `round`). -/
def effectiveKnots (speed factor : ℚ) : ℤ :=
  round (speed * factor)

/-- Closed form of the greedy loop: starting from accumulator `acc` on
input `k`, each counter grows by the corresponding greedy quotient. -/
theorem barbLoop_eq (k : ℕ) (acc : Barbs) :
    barbLoop k acc =
      ⟨acc.c50 + k / 50, acc.c10 + k % 50 / 10, acc.c5 + k % 50 % 10 / 5⟩ := by
  induction k using Nat.strong_induction_on generalizing acc with
  | _ k ih =>
    obtain ⟨a50, a10, a5⟩ := acc
    rw [barbLoop]
    split_ifs with h50 h10 h5
    · rw [ih (k - 50) (by omega)]
      simp only [Barbs.mk.injEq]
      refine ⟨?_, ?_, ?_⟩ <;> omega
    · rw [ih (k - 10) (by omega)]
      simp only [Barbs.mk.injEq]
      refine ⟨?_, ?_, ?_⟩ <;> omega
    · rw [ih (k - 5) (by omega)]
      simp only [Barbs.mk.injEq]
      refine ⟨?_, ?_, ?_⟩ <;> omega
    · simp only [Barbs.mk.injEq]
      refine ⟨?_, ?_, ?_⟩ <;> omega

/-! ## Configuration (`DEFAULT_CONFIG`, `PublicWindBarbOptions`, `mergeOptions`) -/

/-- `size` of `WindBarbSize`. -/
structure Size where
  width : ℚ
  height : ℚ
  deriving Repr, DecidableEq

/-- `bar` of `WindBarbBar`. -/
structure BarOptions where
  stroke : String
  width : ℚ
  angle : ℚ
  padding : ℚ
  fullBarClassName : String
  shortBarClassName : String
  deriving Repr, DecidableEq

/-- `triangle` of `WindBarbTriangle`. -/
structure TriangleOptions where
  stroke : String
  fill : String
  padding : ℚ
  className : String
  deriving Repr, DecidableEq

/-- `circle` of `WindBarbCircle`. -/
structure CircleOptions where
  stroke : String
  fill : String
  radius : ℚ
  strokeWidth : ℚ
  className : String
  deriving Repr, DecidableEq

/-- `dims` of `WindBarbDims`.  The source fills it in `getSizes` with
`barHeight = size.height`, `triangleHeight = height·sin C`,
`triangleWidth = height·cos C` for `C = (90 − bar.angle)·π/180`,
using floating-point trigonometry; here it is carried as data. -/
structure Dims where
  barHeight : ℚ
  triangleHeight : ℚ
  triangleWidth : ℚ
  deriving Repr, DecidableEq

/-- `PrivateWindBarbOptions`: the fully merged configuration
(`this.fullOptions`).  `rootBarClassName` is an `Option` because
`mergeOptions` never copies it into `privateOptions`, so at runtime the
merged record's `rootBarClassName` is `undefined`. -/
structure FullOptions where
  size : Size
  rootBarClassName : Option String
  svgId : String
  bar : BarOptions
  conversionFactor : ℚ
  triangle : TriangleOptions
  circle : CircleOptions
  dims : Dims
  deriving Repr, DecidableEq

/-- `DeepPartial` counterpart of `size`. -/
structure PublicSize where
  width : Option ℚ := none
  height : Option ℚ := none
  deriving Repr, DecidableEq

/-- `DeepPartial` counterpart of `bar`. -/
structure PublicBar where
  stroke : Option String := none
  width : Option ℚ := none
  angle : Option ℚ := none
  padding : Option ℚ := none
  fullBarClassName : Option String := none
  shortBarClassName : Option String := none
  deriving Repr, DecidableEq

/-- `DeepPartial` counterpart of `triangle`. -/
structure PublicTriangle where
  stroke : Option String := none
  fill : Option String := none
  padding : Option ℚ := none
  className : Option String := none
  deriving Repr, DecidableEq

/-- `DeepPartial` counterpart of `circle`. -/
structure PublicCircle where
  stroke : Option String := none
  fill : Option String := none
  radius : Option ℚ := none
  strokeWidth : Option ℚ := none
  className : Option String := none
  deriving Repr, DecidableEq

/-- `PublicWindBarbOptions` (`DeepPartial` of the whole configuration);
a field left `none` stands for "not provided by the caller".  The
defaulted record `{}` models the `this.options || {}` of the source. -/
structure PublicOptions where
  size : PublicSize := {}
  rootBarClassName : Option String := none
  svgId : Option String := none
  bar : PublicBar := {}
  conversionFactor : Option ℚ := none
  triangle : PublicTriangle := {}
  circle : PublicCircle := {}
  deriving Repr, DecidableEq

/-- `DEFAULT_CONFIG` of the source (without `dims`). -/
def defaultSize : Size := { height := 33, width := 80 }

/-- `DEFAULT_CONFIG.bar`. -/
def defaultBar : BarOptions :=
  { angle := 30, padding := 6, stroke := "#000", width := 2,
    fullBarClassName := "wind-barb-bar-full",
    shortBarClassName := "wind-barb-bar-half" }

/-- `DEFAULT_CONFIG.triangle`. -/
def defaultTriangle : TriangleOptions :=
  { fill := "#000", stroke := "#000", padding := 6,
    className := "wind-barb-triangle" }

/-- `DEFAULT_CONFIG.circle`. -/
def defaultCircle : CircleOptions :=
  { fill := "#FFFFFF00", stroke := "#000", radius := 10,
    strokeWidth := 2, className := "wind-barb-circle" }

/-- `ConversionFactors.None`, the default `conversionFactor`. -/
def defaultConversionFactor : ℚ := 1

/-- `ConversionFactors.MpsToKnot` (meters per second to knots). -/
def mpsToKnot : ℚ := 1944 / 1000

/-- `ConversionFactors.KmhToKnot` (km/h to knots). -/
def kmhToKnot : ℚ := 539 / 1000

/-- `D3WindBarb.mergeOptions`: object-spread merge of the user options
over `DEFAULT_CONFIG`, field by field inside each nested record
(`{ ...bar, ...pBar }` etc., `pConversionFactor ?? conversionFactor`,
`pSvgId ?? svgId`), then the `dims` record is attached.  As in the
source, the user's and default `rootBarClassName` are dropped
(`privateOptions` never receives that key). -/
def mergeOptions (options : PublicOptions) (dims : Dims) : FullOptions :=
  { size := { width := options.size.width.getD defaultSize.width,
              height := options.size.height.getD defaultSize.height },
    rootBarClassName := none,
    svgId := options.svgId.getD "",
    bar := { stroke := options.bar.stroke.getD defaultBar.stroke,
             width := options.bar.width.getD defaultBar.width,
             angle := options.bar.angle.getD defaultBar.angle,
             padding := options.bar.padding.getD defaultBar.padding,
             fullBarClassName :=
               options.bar.fullBarClassName.getD defaultBar.fullBarClassName,
             shortBarClassName :=
               options.bar.shortBarClassName.getD defaultBar.shortBarClassName },
    conversionFactor := options.conversionFactor.getD defaultConversionFactor,
    triangle := { stroke := options.triangle.stroke.getD defaultTriangle.stroke,
                  fill := options.triangle.fill.getD defaultTriangle.fill,
                  padding := options.triangle.padding.getD defaultTriangle.padding,
                  className := options.triangle.className.getD defaultTriangle.className },
    circle := { stroke := options.circle.stroke.getD defaultCircle.stroke,
                fill := options.circle.fill.getD defaultCircle.fill,
                radius := options.circle.radius.getD defaultCircle.radius,
                strokeWidth := options.circle.strokeWidth.getD defaultCircle.strokeWidth,
                className := options.circle.className.getD defaultCircle.className },
    dims := dims }

/-! ## Emitted SVG shapes -/

/-- The three corner points of a triangle's `d` attribute, as built by
`drawPath` in `drawTriangles`:
`M x1,y1, x2,y2, x3,y3 z`. -/
structure PathD where
  x1 : ℚ
  y1 : ℚ
  x2 : ℚ
  y2 : ℚ
  x3 : ℚ
  y3 : ℚ
  deriving Repr, DecidableEq

/-- An SVG element as emitted by the drawing methods.  `line` carries
the optional `transform-origin`/`rotate(angle)` pair that full and half
bars receive; `container` is the `g` that `drawBarbs` creates, with its
`transform-origin`, final `translate(0, ty)` and `rotate(rot)`. -/
inductive Elem where
  | circle (r cx cy : ℚ) (stroke fill : String) (strokeWidth : ℚ)
      (className : String)
  | line (x1 y1 x2 y2 : ℚ) (strokeWidth : ℚ) (stroke : String)
      (className : Option String) (transformOrigin : Option (ℚ × ℚ))
      (rotate : Option ℚ)
  | path (d : PathD) (stroke fill className : String)
  | g (children : List Elem)
  | container (originX originY tx ty rot : ℚ) (children : List Elem)
  deriving Repr

/-- Number of elements in a tree (the element and its descendants)
whose `class` attribute equals `cls` — the model of the test-suite's
`getElementsByClassName(cls).length`. -/
def countClass (cls : String) : Elem → ℕ
  | .circle _ _ _ _ _ _ cn => if cn = cls then 1 else 0
  | .line _ _ _ _ _ _ cn _ _ => if cn = some cls then 1 else 0
  | .path _ _ _ cn => if cn = cls then 1 else 0
  | .g cs => (cs.attach.map fun c => countClass cls c.1).sum
  | .container _ _ _ _ _ cs => (cs.attach.map fun c => countClass cls c.1).sum
  termination_by e => sizeOf e
  decreasing_by
  all_goals simp_wf
  all_goals
    have h := List.sizeOf_lt_of_mem c.2
    omega

/-- `countClass` over a list of sibling elements (e.g. the children of
the root `svg`). -/
def countClassList (cls : String) (l : List Elem) : ℕ :=
  (l.map (countClass cls)).sum

/-! ## Drawing methods -/

/-- `D3WindBarb.drawCircle`: one `circle` with radius, centre
`(width/2, height/2)`, stroke, fill, stroke-width and class from the
`circle` configuration. -/
def drawCircle (o : FullOptions) : Elem :=
  .circle o.circle.radius (o.size.width / 2) (o.size.height / 2)
    o.circle.stroke o.circle.fill o.circle.strokeWidth o.circle.className

/-- `initialX` of the `drawPath` closure in `drawTriangles`:
`width - (triangleWidth + padding) * index`. -/
def triangleX (o : FullOptions) (index : ℕ) : ℚ :=
  o.size.width - (o.dims.triangleWidth + o.triangle.padding) * index

/-- `drawPath` of `drawTriangles`: the closed path
`M initialX,height, initialX−triangleWidth,height, initialX,height−triangleHeight z`. -/
def drawPath (o : FullOptions) (index : ℕ) : PathD :=
  { x1 := triangleX o index, y1 := o.size.height,
    x2 := triangleX o index - o.dims.triangleWidth, y2 := o.size.height,
    x3 := triangleX o index, y3 := o.size.height - o.dims.triangleHeight }

/-- `D3WindBarb.drawTriangles`: a `g` with one path per `range q`
index, stroke/fill/class from the `triangle` configuration. -/
def drawTriangles (q : ℕ) (o : FullOptions) : Elem :=
  .g ((List.range q).map fun i =>
    .path (drawPath o i) o.triangle.stroke o.triangle.fill o.triangle.className)

/-- The `x` position of bar `i` in `drawFullBars`/`drawHalfBars`:
`width - (right + i * (barWidth + padding))`. -/
def barX (o : FullOptions) (right : ℚ) (i : ℕ) : ℚ :=
  o.size.width - (right + i * (o.bar.width + o.bar.padding))

/-- `D3WindBarb.drawFullBars`: a `g` of vertical lines from
`(x, height)` to `(x, height − barHeight)`, each rotated by
`bar.angle` about its own base point `(x, height)`. -/
def drawFullBars (q : ℕ) (o : FullOptions) (right : ℚ) : Elem :=
  .g ((List.range q).map fun i =>
    .line (barX o right i) o.size.height (barX o right i)
      (o.size.height - o.dims.barHeight) o.bar.width o.bar.stroke
      (some o.bar.fullBarClassName)
      (some (barX o right i, o.size.height)) (some o.bar.angle))

/-- `D3WindBarb.drawHalfBars`: like `drawFullBars` but the line ends at
`height − barHeight/2` and uses `shortBarClassName`. -/
def drawHalfBars (q : ℕ) (o : FullOptions) (right : ℚ) : Elem :=
  .g ((List.range q).map fun i =>
    .line (barX o right i) o.size.height (barX o right i)
      (o.size.height - o.dims.barHeight / 2) o.bar.width o.bar.stroke
      (some o.bar.shortBarClassName)
      (some (barX o right i, o.size.height)) (some o.bar.angle))

/-- The `paddingR` handed to `drawFullBars` in `drawBarbs`:
`barbs[50] * (triangleWidth + trianglePadding)`. -/
def right50 (o : FullOptions) (b : Barbs) : ℚ :=
  b.c50 * (o.dims.triangleWidth + o.triangle.padding)

/-- The `paddingR` handed to `drawHalfBars` in `drawBarbs`:
`barbs[50] * (triangleWidth + trianglePadding) + barbs[10] * (barPadding + barWidth)`. -/
def rightHalf (o : FullOptions) (b : Barbs) : ℚ :=
  right50 o b + b.c10 * (o.bar.padding + o.bar.width)

/-- The root shaft line of `drawBarbs`: from `(0, height)` to
`(width, height)`, stroke-width `bar.width`, stroke `bar.stroke`,
class `rootBarClassName` (which the merged options leave undefined). -/
def shaftLine (o : FullOptions) : Elem :=
  .line 0 o.size.height o.size.width o.size.height o.bar.width o.bar.stroke
    o.rootBarClassName none none

/-- `D3WindBarb.drawBarbs`: the container `g` holding the shaft, then —
in this order and only when the count is nonzero — the triangles, the
full bars (offset `right50`) and the half bars (offset `rightHalf`).
The container gets `transform-origin` `(width/2, height)` and its
final `transform` is `translate(0, −height/2) rotate(−90 + angle)`
(the second `.attr('transform', …)` call overwrites the first). -/
def drawBarbs (b : Barbs) (angle : ℚ) (o : FullOptions) : Elem :=
  .container (o.size.width / 2) o.size.height 0 (-(o.size.height) / 2)
    (-90 + angle)
    ([shaftLine o]
      ++ (if b.c50 ≠ 0 then [drawTriangles b.c50 o] else [])
      ++ (if b.c10 ≠ 0 then [drawFullBars b.c10 o (right50 o b)] else [])
      ++ (if b.c5 ≠ 0 then [drawHalfBars b.c5 o (rightHalf o b)] else []))

/-! ## Instance state, constructor and `draw` -/

/-- The mutable state of a `D3WindBarb` instance: the constructor
arguments, the merged `fullOptions` and the children so far appended to
the root `svg` element. -/
structure WindBarbState where
  speed : ℚ
  angle : ℚ
  fullOptions : FullOptions
  svgChildren : List Elem
  deriving Repr

/-- The root `svg` node (`createSvg` attributes plus its children). -/
structure SvgNode where
  width : ℚ
  height : ℚ
  svgId : String
  children : List Elem
  deriving Repr

/-- The `D3WindBarb` constructor: merge the options, create the (still
childless) `svg`. -/
def construct (speed angle : ℚ) (options : PublicOptions) (dims : Dims) :
    WindBarbState :=
  { speed := speed, angle := angle,
    fullOptions := mergeOptions options dims, svgChildren := [] }

/-- `D3WindBarb.getBarbs`: round `speed × conversionFactor` to knots
and decompose. -/
def getBarbs (speed : ℚ) (o : FullOptions) : Option Barbs :=
  decompose (effectiveKnots speed o.conversionFactor)

/-- The shapes one `draw()` call appends to the svg: the calm circle
when `getBarbs` returns `undefined`, the barb container otherwise. -/
def drawShapes (st : WindBarbState) : List Elem :=
  match getBarbs st.speed st.fullOptions with
  | none => [drawCircle st.fullOptions]
  | some b => [drawBarbs b st.angle st.fullOptions]

/-- `D3WindBarb.draw` (without a container argument): append the shapes
to `this.svg` and return the svg node together with the new instance
state. -/
def draw (st : WindBarbState) : SvgNode × WindBarbState :=
  let children := st.svgChildren ++ drawShapes st
  ({ width := st.fullOptions.size.width, height := st.fullOptions.size.height,
     svgId := st.fullOptions.svgId, children := children },
   { st with svgChildren := children })

/-- The attach step of `draw(container)`: `if (container)` (truthy, so
the empty string is skipped) then
`select(container).node()?.appendChild(svg)` — the optional chain makes
a missing target a no-op.  `doc` is the list of selectors that match
some element of the document; the result is the element (if any) the
svg was appended to. -/
def attachTarget (doc : List String) (container : Option String) :
    Option String :=
  match container with
  | none => none
  | some c => if c = "" then none else if c ∈ doc then some c else none

/-- Number of `path` elements (the triangles / pennants) in a tree. -/
def countPaths : Elem → ℕ
  | .circle _ _ _ _ _ _ _ => 0
  | .line _ _ _ _ _ _ _ _ _ => 0
  | .path _ _ _ _ => 1
  | .g cs => (cs.attach.map fun c => countPaths c.1).sum
  | .container _ _ _ _ _ cs => (cs.attach.map fun c => countPaths c.1).sum
  termination_by e => sizeOf e
  decreasing_by
  all_goals simp_wf
  all_goals
    have h := List.sizeOf_lt_of_mem c.2
    omega

/-- Number of `line` elements (the shaft and the full/half bars) in a
tree. -/
def countLines : Elem → ℕ
  | .circle _ _ _ _ _ _ _ => 0
  | .line _ _ _ _ _ _ _ _ _ => 1
  | .path _ _ _ _ => 0
  | .g cs => (cs.attach.map fun c => countLines c.1).sum
  | .container _ _ _ _ _ cs => (cs.attach.map fun c => countLines c.1).sum
  termination_by e => sizeOf e
  decreasing_by
  all_goals simp_wf
  all_goals
    have h := List.sizeOf_lt_of_mem c.2
    omega

/-- The `rotate` component of an element's `transform` attribute
(`0` for elements that carry none). -/
def rotationOf : Elem → ℚ
  | .container _ _ _ _ rot _ => rot
  | .line _ _ _ _ _ _ _ _ rot => rot.getD 0
  | _ => 0

/-- The `transform-origin` attribute of an element (`(0, 0)` for
elements that carry none). -/
def rotationOriginOf : Elem → ℚ × ℚ
  | .container ox oy _ _ _ _ => (ox, oy)
  | .line _ _ _ _ _ _ _ origin _ => origin.getD (0, 0)
  | _ => (0, 0)

/-- `D3WindBarb.draw(container?)` in a document: draw, best-effort
attach, and return the svg node, the new state and where (if anywhere)
the node was attached. -/
def drawInDocument (doc : List String) (st : WindBarbState)
    (container : Option String) :
    SvgNode × WindBarbState × Option String :=
  let res := draw st
  (res.1, res.2, attachTarget doc container)

/-- A malformed configuration in the sense of the spec: non-positive
canvas width and non-positive circle radius. -/
def malformedOptions : PublicOptions where
  size := { width := some 0 }
  circle := { radius := some (-3) }

/-! ## General lemmas about the embedding -/

/-- When `getBarbs` signals the calm case, one `draw()` appends exactly
the calm circle. -/
theorem drawShapes_calm (st : WindBarbState)
    (h : getBarbs st.speed st.fullOptions = none) :
    drawShapes st = [drawCircle st.fullOptions] := by
  unfold drawShapes
  rw [h]

/-- When `getBarbs` returns segment counts, one `draw()` appends
exactly the barb container. -/
theorem drawShapes_windy (st : WindBarbState) (b : Barbs)
    (h : getBarbs st.speed st.fullOptions = some b) :
    drawShapes st = [drawBarbs b st.angle st.fullOptions] := by
  unfold drawShapes
  rw [h]

/-- The svg node returned by `draw`: the `createSvg` attributes and the
previously accumulated children followed by this call's shapes. -/
theorem draw_node (st : WindBarbState) :
    (draw st).1 =
      ({ width := st.fullOptions.size.width,
         height := st.fullOptions.size.height,
         svgId := st.fullOptions.svgId,
         children := st.svgChildren ++ drawShapes st } : SvgNode) := by
  unfold draw
  rfl

/-- The instance state after `draw`: only `svgChildren` changed. -/
theorem draw_state (st : WindBarbState) :
    (draw st).2 = { st with svgChildren := st.svgChildren ++ drawShapes st } := by
  unfold draw
  rfl

/-- A first `draw()` on a fresh instance in the calm case: the svg's
children are exactly the one circle. -/
theorem draw_calm_children (speed angle : ℚ) (options : PublicOptions) (dims : Dims)
    (h : getBarbs speed (mergeOptions options dims) = none) :
    (draw (construct speed angle options dims)).1.children =
      [drawCircle (mergeOptions options dims)] := by
  have h' : getBarbs (construct speed angle options dims).speed
      (construct speed angle options dims).fullOptions = none := h
  rw [draw_node, drawShapes_calm _ h']
  rfl

/-- A first `draw()` on a fresh instance in the windy case: the svg's
children are exactly the one barb container. -/
theorem draw_windy_children (speed angle : ℚ) (options : PublicOptions) (dims : Dims)
    (b : Barbs) (h : getBarbs speed (mergeOptions options dims) = some b) :
    (draw (construct speed angle options dims)).1.children =
      [drawBarbs b angle (mergeOptions options dims)] := by
  have h' : getBarbs (construct speed angle options dims).speed
      (construct speed angle options dims).fullOptions = some b := h
  rw [draw_node, drawShapes_windy _ b h']
  rfl

/-- `mergeOptions` with no user options is exactly `DEFAULT_CONFIG`
(minus the dropped `rootBarClassName`) plus the given dims. -/
theorem mergeOptions_empty (d : Dims) :
    mergeOptions {} d =
      { size := ⟨80, 33⟩, rootBarClassName := none, svgId := "",
        bar := defaultBar, conversionFactor := 1,
        triangle := defaultTriangle, circle := defaultCircle, dims := d } := rfl

/-! ## Claims -/

/-- C1: for every effective knots value `K` that is a non-negative
integer with `K ≥ 5`, the decomposer produces the largest-first greedy
decomposition — `count50 = ⌊K/50⌋`, `count10 = ⌊(K mod 50)/10⌋`,
`count5 = ⌊(K mod 50 mod 10)/5⌋`, never interleaving magnitudes —
hence `50·count50 + 10·count10 + 5·count5 ≤ K <` that sum `+ 5`, and
`K = 85` yields exactly 1 pennant, 3 full bars and 1 half bar. -/
theorem decompose_greedy (K : ℕ) (h : 5 ≤ K) :
    decompose (K : ℤ) = some ⟨K / 50, K % 50 / 10, K % 50 % 10 / 5⟩ ∧
    50 * (K / 50) + 10 * (K % 50 / 10) + 5 * (K % 50 % 10 / 5) ≤ K ∧
    K < 50 * (K / 50) + 10 * (K % 50 / 10) + 5 * (K % 50 % 10 / 5) + 5 ∧
    decompose 85 = some ⟨1, 3, 1⟩ := by
  refine ⟨?_, by omega, by omega, ?_⟩
  · rw [decompose, if_neg (by omega), barbLoop_eq]
    simp
  · rw [decompose, if_neg (by norm_num), barbLoop_eq]
    decide

/-- Witness for C1 at `K = 85`. -/
theorem decompose_greedy_witness :
    5 ≤ 85 ∧
    (decompose ((85 : ℕ) : ℤ) = some ⟨85 / 50, 85 % 50 / 10, 85 % 50 % 10 / 5⟩ ∧
     50 * (85 / 50) + 10 * (85 % 50 / 10) + 5 * (85 % 50 % 10 / 5) ≤ 85 ∧
     85 < 50 * (85 / 50) + 10 * (85 % 50 / 10) + 5 * (85 % 50 % 10 / 5) + 5 ∧
     decompose 85 = some ⟨1, 3, 1⟩) :=
  ⟨by norm_num, decompose_greedy 85 (by norm_num)⟩

/-- C2: whenever the effective knots value is below 5, `draw` emits
exactly one circle centred at `(width/2, height/2)` with the configured
radius, stroke, fill, stroke-width and class, and zero triangle paths
and zero bar lines; the decomposer signals this case by the
distinguished absence `none` (`undefined`), not an error. -/
theorem draw_calm_circle (speed angle : ℚ) (options : PublicOptions) (dims : Dims)
    (h : effectiveKnots speed (mergeOptions options dims).conversionFactor < 5) :
    (draw (construct speed angle options dims)).1.children =
      [Elem.circle (mergeOptions options dims).circle.radius
        ((mergeOptions options dims).size.width / 2)
        ((mergeOptions options dims).size.height / 2)
        (mergeOptions options dims).circle.stroke
        (mergeOptions options dims).circle.fill
        (mergeOptions options dims).circle.strokeWidth
        (mergeOptions options dims).circle.className] ∧
    getBarbs speed (mergeOptions options dims) = none ∧
    ((draw (construct speed angle options dims)).1.children.map countPaths).sum = 0 ∧
    ((draw (construct speed angle options dims)).1.children.map countLines).sum = 0 := by
  have hgb : getBarbs speed (mergeOptions options dims) = none := by
    rw [getBarbs, decompose, if_pos h]
  have hc := draw_calm_children speed angle options dims hgb
  refine ⟨by rw [hc]; rfl, hgb, ?_, ?_⟩
  · rw [hc]
    simp [drawCircle, countPaths]
  · rw [hc]
    simp [drawCircle, countLines]

/-- Witness for C2 at speed `0` with default configuration. -/
theorem draw_calm_circle_witness :
    effectiveKnots 0 (mergeOptions {} ⟨33, 1, 2⟩).conversionFactor < 5 ∧
    ((draw (construct 0 90 {} ⟨33, 1, 2⟩)).1.children =
      [Elem.circle (mergeOptions {} ⟨33, 1, 2⟩).circle.radius
        ((mergeOptions {} ⟨33, 1, 2⟩).size.width / 2)
        ((mergeOptions {} ⟨33, 1, 2⟩).size.height / 2)
        (mergeOptions {} ⟨33, 1, 2⟩).circle.stroke
        (mergeOptions {} ⟨33, 1, 2⟩).circle.fill
        (mergeOptions {} ⟨33, 1, 2⟩).circle.strokeWidth
        (mergeOptions {} ⟨33, 1, 2⟩).circle.className] ∧
     getBarbs 0 (mergeOptions {} ⟨33, 1, 2⟩) = none ∧
     ((draw (construct 0 90 {} ⟨33, 1, 2⟩)).1.children.map countPaths).sum = 0 ∧
     ((draw (construct 0 90 {} ⟨33, 1, 2⟩)).1.children.map countLines).sum = 0) := by
  have h : effectiveKnots 0 (mergeOptions {} ⟨33, 1, 2⟩).conversionFactor < 5 := by
    show effectiveKnots 0 1 < 5
    rw [effectiveKnots, round_eq]
    norm_num
  exact ⟨h, draw_calm_circle 0 90 {} ⟨33, 1, 2⟩ h⟩

/-- C3 counterexample: at the negative speed `−10` (conversion factor
1) the operation does not fail — it silently renders the calm circle.
No `InvalidSpeed` precondition failure exists anywhere in the code. -/
theorem negative_speed_renders :
    (draw (construct (-10) 0 {} ⟨33, 0, 0⟩)).1.children =
      [Elem.circle 10 (80 / 2) (33 / 2) "#000" "#FFFFFF00" 2 "wind-barb-circle"] := by
  have hk : effectiveKnots (-10) (mergeOptions ({} : PublicOptions) ⟨33, 0, 0⟩).conversionFactor
      = -10 := by
    show effectiveKnots (-10) 1 = -10
    rw [effectiveKnots, round_eq]
    norm_num
  have hgb : getBarbs (-10) (mergeOptions {} ⟨33, 0, 0⟩) = none := by
    rw [getBarbs, hk, decompose, if_pos (by norm_num)]
  rw [draw_calm_children (-10) 0 {} ⟨33, 0, 0⟩ hgb]
  rfl

/-- C3 (amended): a negative speed is never rejected — there is no
`InvalidSpeed` error in the code.  With a non-negative conversion
factor the effective knots value is at most 0, so the decomposer
returns the calm signal (`undefined`) and `draw` silently renders the
calm-wind circle. -/
theorem negative_speed_calm_circle (speed angle : ℚ) (options : PublicOptions) (dims : Dims)
    (hneg : speed < 0)
    (hfac : 0 ≤ (mergeOptions options dims).conversionFactor) :
    getBarbs speed (mergeOptions options dims) = none ∧
    (draw (construct speed angle options dims)).1.children =
      [drawCircle (mergeOptions options dims)] := by
  have hmul : speed * (mergeOptions options dims).conversionFactor ≤ 0 :=
    mul_nonpos_of_nonpos_of_nonneg hneg.le hfac
  have hk : effectiveKnots speed (mergeOptions options dims).conversionFactor ≤ 0 := by
    rw [effectiveKnots, round_eq]
    calc ⌊speed * (mergeOptions options dims).conversionFactor + 1 / 2⌋
        ≤ ⌊(0 : ℚ) + 1 / 2⌋ := Int.floor_le_floor (by linarith)
      _ = 0 := by norm_num
  have hgb : getBarbs speed (mergeOptions options dims) = none := by
    rw [getBarbs, decompose, if_pos (by omega)]
  exact ⟨hgb, draw_calm_children speed angle options dims hgb⟩

/-- Witness for the amended C3 at speed `−10`. -/
theorem negative_speed_calm_circle_witness :
    (-10 : ℚ) < 0 ∧ 0 ≤ (mergeOptions {} ⟨33, 0, 0⟩).conversionFactor ∧
    (getBarbs (-10) (mergeOptions {} ⟨33, 0, 0⟩) = none ∧
     (draw (construct (-10) 45 {} ⟨33, 0, 0⟩)).1.children =
       [drawCircle (mergeOptions {} ⟨33, 0, 0⟩)]) := by
  have h1 : (-10 : ℚ) < 0 := by norm_num
  have h2 : (0 : ℚ) ≤ (mergeOptions {} ⟨33, 0, 0⟩).conversionFactor := by
    show (0 : ℚ) ≤ 1
    norm_num
  exact ⟨h1, h2, negative_speed_calm_circle (-10) 45 {} ⟨33, 0, 0⟩ h1 h2⟩

/-- C4 counterexample: a configuration with non-positive canvas width
and non-positive circle radius is not rejected — `draw` succeeds and
produces an svg of width 0 containing a circle of radius −3.  No
`InvalidConfiguration` precondition failure exists in the code. -/
theorem malformed_config_renders :
    (draw (construct 0 0 malformedOptions ⟨33, 0, 0⟩)).1 =
      ({ width := 0, height := 33, svgId := "",
         children := [Elem.circle (-3) (0 / 2) (33 / 2) "#000" "#FFFFFF00" 2
           "wind-barb-circle"] } : SvgNode) := by
  have hk : effectiveKnots 0 (mergeOptions malformedOptions ⟨33, 0, 0⟩).conversionFactor
      = 0 := by
    show effectiveKnots 0 1 = 0
    rw [effectiveKnots, round_eq]
    norm_num
  have hgb : getBarbs 0 (mergeOptions malformedOptions ⟨33, 0, 0⟩) = none := by
    rw [getBarbs, hk, decompose, if_pos (by norm_num)]
  rw [draw_node]
  have h' : getBarbs (construct 0 0 malformedOptions ⟨33, 0, 0⟩).speed
      (construct 0 0 malformedOptions ⟨33, 0, 0⟩).fullOptions = none := hgb
  rw [drawShapes_calm _ h']
  rfl

/-- C4 (amended): configuration is never validated — for every
configuration (malformed or not) rendering proceeds with no failure:
the returned svg takes the merged (possibly non-positive) width and
height as-is and always receives its one shape. -/
theorem config_never_validated (speed angle : ℚ) (options : PublicOptions) (dims : Dims) :
    (draw (construct speed angle options dims)).1.width =
      (mergeOptions options dims).size.width ∧
    (draw (construct speed angle options dims)).1.height =
      (mergeOptions options dims).size.height ∧
    (draw (construct speed angle options dims)).1.children.length = 1 := by
  refine ⟨by rw [draw_node]; rfl, by rw [draw_node]; rfl, ?_⟩
  rcases hgb : getBarbs speed (mergeOptions options dims) with _ | b
  · rw [draw_calm_children speed angle options dims hgb]
    rfl
  · rw [draw_windy_children speed angle options dims b hgb]
    rfl

/-- C5: the effective knots value handed to the decomposer equals
`round(speed × factor)` to the nearest integer; speed 40 with factor
1.944 gives `round 77.76 = 78` and hence 1 triangle, 2 full bars and
1 half bar, both through `decompose` and through the full `getBarbs`
pipeline. -/
theorem effective_knots_round :
    (∀ speed factor : ℚ, effectiveKnots speed factor = round (speed * factor)) ∧
    effectiveKnots 40 mpsToKnot = 78 ∧
    decompose (effectiveKnots 40 mpsToKnot) = some ⟨1, 2, 1⟩ ∧
    (∀ dims : Dims,
      getBarbs 40 (mergeOptions { conversionFactor := some mpsToKnot } dims) =
        some ⟨1, 2, 1⟩) := by
  have h78 : effectiveKnots 40 mpsToKnot = 78 := by
    rw [effectiveKnots, mpsToKnot, round_eq]
    norm_num
  have hd : decompose 78 = some ⟨1, 2, 1⟩ := by
    rw [decompose, if_neg (by norm_num), barbLoop_eq]
    decide
  refine ⟨fun _ _ => rfl, h78, by rw [h78]; exact hd, fun dims => ?_⟩
  have hcf : (mergeOptions { conversionFactor := some mpsToKnot } dims).conversionFactor
      = mpsToKnot := rfl
  rw [getBarbs, hcf, h78]
  exact hd

/-- C6: every windy render (effective knots ≥ 5) emits one container
group whose net `rotate` is exactly `angle − 90` degrees about the
point `(width/2, height)` — the midpoint of the shaft, which runs from
`(0, height)` to `(width, height)`; at `angle = 90` the net rotation
is 0 and the shaft lies along the baseline. -/
theorem windy_rotation (speed angle : ℚ) (options : PublicOptions) (dims : Dims)
    (h : 5 ≤ effectiveKnots speed (mergeOptions options dims).conversionFactor) :
    ∃ b : Barbs,
      getBarbs speed (mergeOptions options dims) = some b ∧
      (draw (construct speed angle options dims)).1.children =
        [drawBarbs b angle (mergeOptions options dims)] ∧
      (∀ e ∈ (draw (construct speed angle options dims)).1.children,
        rotationOf e = angle - 90 ∧
        rotationOriginOf e =
          ((mergeOptions options dims).size.width / 2,
           (mergeOptions options dims).size.height)) ∧
      (angle = 90 →
        ∀ e ∈ (draw (construct speed angle options dims)).1.children,
          rotationOf e = 0) := by
  refine ⟨barbLoop (effectiveKnots speed
      (mergeOptions options dims).conversionFactor).toNat ⟨0, 0, 0⟩, ?_, ?_, ?_, ?_⟩
  · rw [getBarbs, decompose, if_neg (by omega)]
  · exact draw_windy_children speed angle options dims _
      (by rw [getBarbs, decompose, if_neg (by omega)])
  · rw [draw_windy_children speed angle options dims _
      (by rw [getBarbs, decompose, if_neg (by omega)])]
    intro e he
    rw [List.mem_singleton] at he
    subst he
    constructor
    · show -90 + angle = angle - 90
      ring
    · rfl
  · intro h90
    rw [draw_windy_children speed angle options dims _
      (by rw [getBarbs, decompose, if_neg (by omega)])]
    intro e he
    rw [List.mem_singleton] at he
    subst he
    show -90 + angle = 0
    rw [h90]
    norm_num

/-- Witness for C6 at speed 85, angle 90, default configuration. -/
theorem windy_rotation_witness :
    5 ≤ effectiveKnots 85 (mergeOptions {} ⟨33, 1, 2⟩).conversionFactor ∧
    (∃ b : Barbs,
      getBarbs 85 (mergeOptions {} ⟨33, 1, 2⟩) = some b ∧
      (draw (construct 85 90 {} ⟨33, 1, 2⟩)).1.children =
        [drawBarbs b 90 (mergeOptions {} ⟨33, 1, 2⟩)] ∧
      (∀ e ∈ (draw (construct 85 90 {} ⟨33, 1, 2⟩)).1.children,
        rotationOf e = 90 - 90 ∧
        rotationOriginOf e =
          ((mergeOptions {} ⟨33, 1, 2⟩).size.width / 2,
           (mergeOptions {} ⟨33, 1, 2⟩).size.height)) ∧
      ((90 : ℚ) = 90 →
        ∀ e ∈ (draw (construct 85 90 {} ⟨33, 1, 2⟩)).1.children,
          rotationOf e = 0)) := by
  have h : 5 ≤ effectiveKnots 85 (mergeOptions {} ⟨33, 1, 2⟩).conversionFactor := by
    show 5 ≤ effectiveKnots 85 1
    rw [effectiveKnots, round_eq]
    norm_num
  exact ⟨h, windy_rotation 85 90 {} ⟨33, 1, 2⟩ h⟩

/-- C8: rendering is deterministic — two renders with equal arguments,
each on a freshly constructed instance, return identical svg trees.
The constructor initialises every piece of instance state from its
arguments alone; there is no hidden mutable counter or global state in
the source. -/
theorem draw_deterministic (s1 s2 a1 a2 : ℚ) (o1 o2 : PublicOptions) (d1 d2 : Dims)
    (hs : s1 = s2) (ha : a1 = a2) (ho : o1 = o2) (hd : d1 = d2) :
    (draw (construct s1 a1 o1 d1)).1 = (draw (construct s2 a2 o2 d2)).1 := by
  subst hs
  subst ha
  subst ho
  subst hd
  rfl

/-- Witness for C8 at speed 85, angle 90, default configuration. -/
theorem draw_deterministic_witness :
    (85 : ℚ) = 85 ∧ (90 : ℚ) = 90 ∧ ({} : PublicOptions) = {} ∧
    (⟨33, 1, 2⟩ : Dims) = ⟨33, 1, 2⟩ ∧
    (draw (construct 85 90 {} ⟨33, 1, 2⟩)).1 = (draw (construct 85 90 {} ⟨33, 1, 2⟩)).1 :=
  ⟨rfl, rfl, rfl, rfl,
    draw_deterministic 85 85 90 90 {} {} ⟨33, 1, 2⟩ ⟨33, 1, 2⟩ rfl rfl rfl rfl⟩

/-- C9: `draw(container)` with a selector matching no element of the
document does not fail (the embedding of the optional chain
`select(container).node()?.appendChild(...)` is total), attaches the
svg to nothing, and still returns the constructed svg node. -/
theorem draw_missing_container (doc : List String) (st : WindBarbState) (c : String)
    (h : c ∉ doc) :
    drawInDocument doc st (some c) = ((draw st).1, (draw st).2, none) := by
  unfold drawInDocument attachTarget
  dsimp only
  split_ifs with h1
  · rfl
  · rfl

/-- Witness for C9: a document containing only `#container`, drawing
into the missing `#missing`. -/
theorem draw_missing_container_witness :
    "#missing" ∉ ["#container"] ∧
    drawInDocument ["#container"] (construct 85 90 {} ⟨33, 1, 2⟩) (some "#missing") =
      ((draw (construct 85 90 {} ⟨33, 1, 2⟩)).1,
       (draw (construct 85 90 {} ⟨33, 1, 2⟩)).2, none) :=
  ⟨by decide, draw_missing_container ["#container"] (construct 85 90 {} ⟨33, 1, 2⟩)
    "#missing" (by decide)⟩

/-- `drawShapes` ignores the accumulated svg children — the shapes a
call emits depend only on the constructor arguments. -/
theorem drawShapes_config_only (st : WindBarbState) (l : List Elem) :
    drawShapes { st with svgChildren := l } = drawShapes st := rfl

/-- C10: the svg root is created once at construction and reused: each
`draw()` on the same instance returns the same root node (same width,
height and id) and appends one more copy of the shape set to it, so a
second `draw()` yields a tree with two copies of the shapes. -/
theorem draw_twice_appends (speed angle : ℚ) (options : PublicOptions) (dims : Dims) :
    (draw (construct speed angle options dims)).1.children =
      drawShapes (construct speed angle options dims) ∧
    (draw (draw (construct speed angle options dims)).2).1.children =
      (draw (construct speed angle options dims)).1.children ++
        (draw (construct speed angle options dims)).1.children ∧
    (draw (construct speed angle options dims)).1.children.length = 1 ∧
    (draw (draw (construct speed angle options dims)).2).1.children.length = 2 ∧
    (draw (draw (construct speed angle options dims)).2).1.width =
      (draw (construct speed angle options dims)).1.width ∧
    (draw (draw (construct speed angle options dims)).2).1.height =
      (draw (construct speed angle options dims)).1.height ∧
    (draw (draw (construct speed angle options dims)).2).1.svgId =
      (draw (construct speed angle options dims)).1.svgId := by
  have hlen : (drawShapes (construct speed angle options dims)).length = 1 := by
    rcases hgb : getBarbs (construct speed angle options dims).speed
        (construct speed angle options dims).fullOptions with _ | b
    · rw [drawShapes_calm _ hgb]
      rfl
    · rw [drawShapes_windy _ b hgb]
      rfl
  have h1 : (draw (construct speed angle options dims)).1.children =
      drawShapes (construct speed angle options dims) := by
    rw [draw_node]
    rfl
  have hstate : (draw (construct speed angle options dims)).2 =
      { speed := speed, angle := angle,
        fullOptions := mergeOptions options dims,
        svgChildren := drawShapes (construct speed angle options dims) } := by
    rw [draw_state]
    rfl
  have hshapes2 : drawShapes
      ({ speed := speed, angle := angle,
         fullOptions := mergeOptions options dims,
         svgChildren := drawShapes (construct speed angle options dims) } :
        WindBarbState) =
      drawShapes (construct speed angle options dims) := rfl
  have h2 : (draw (draw (construct speed angle options dims)).2).1.children =
      drawShapes (construct speed angle options dims) ++
        drawShapes (construct speed angle options dims) := by
    rw [hstate, draw_node, hshapes2]
  refine ⟨h1, by rw [h2, h1], by rw [h1]; exact hlen, ?_, ?_, ?_, ?_⟩
  · rw [h2]
    simp [hlen]
  · rw [hstate, draw_node, draw_node]
    rfl
  · rw [hstate, draw_node, draw_node]
    rfl
  · rw [hstate, draw_node, draw_node]
    rfl

/-- C7: layout and ordering of the emitted segments.  `triangleX` is
the anchor of triangle `i` (as emitted by `drawTriangles`, occupying
`[triangleX − triangleWidth, triangleX]` horizontally), `barX` the `x`
of bar `i` (as emitted by `drawFullBars`/`drawHalfBars`), and
`right50`/`rightHalf` the offsets `drawBarbs` passes to them:
full bars start offset by `count50·(triangleWidth + trianglePadding)`,
half bars additionally by `count10·(barPadding + barWidth)`.  Spacing
accumulates strictly leftward per element, triangles sit closest to the
shaft's right tip, then full bars, then half bars, and (for positive
paddings and non-negative widths) no two segments overlap
horizontally. -/
theorem segment_layout (o : FullOptions) (b : Barbs)
    (htp : 0 < o.triangle.padding) (hbp : 0 < o.bar.padding)
    (htw : 0 ≤ o.dims.triangleWidth) (hbw : 0 ≤ o.bar.width) :
    right50 o b = b.c50 * (o.dims.triangleWidth + o.triangle.padding) ∧
    rightHalf o b = right50 o b + b.c10 * (o.bar.padding + o.bar.width) ∧
    (∀ i j : ℕ, i < j → triangleX o j < triangleX o i - o.dims.triangleWidth) ∧
    (∀ r : ℚ, ∀ i j : ℕ, i < j → barX o r j < barX o r i) ∧
    (∀ i j : ℕ, i < b.c50 → j < b.c10 →
      barX o (right50 o b) j < triangleX o i - o.dims.triangleWidth) ∧
    (∀ i k : ℕ, i < b.c50 → k < b.c5 →
      barX o (rightHalf o b) k < triangleX o i - o.dims.triangleWidth) ∧
    (∀ j k : ℕ, j < b.c10 → k < b.c5 →
      barX o (rightHalf o b) k < barX o (right50 o b) j) := by
  refine ⟨rfl, rfl, ?_, ?_, ?_, ?_, ?_⟩
  · intro i j hij
    unfold triangleX
    have hij' : (i : ℚ) + 1 ≤ (j : ℚ) := by exact_mod_cast hij
    have h1 : (o.dims.triangleWidth + o.triangle.padding) * ((i : ℚ) + 1) ≤
        (o.dims.triangleWidth + o.triangle.padding) * (j : ℚ) :=
      mul_le_mul_of_nonneg_left hij' (by linarith)
    nlinarith [h1]
  · intro r i j hij
    unfold barX
    have hij' : (i : ℚ) < (j : ℚ) := by exact_mod_cast hij
    have h1 : (i : ℚ) * (o.bar.width + o.bar.padding) <
        (j : ℚ) * (o.bar.width + o.bar.padding) :=
      mul_lt_mul_of_pos_right hij' (by linarith)
    linarith
  · intro i j hi hj
    unfold barX triangleX right50
    have hi' : (i : ℚ) + 1 ≤ (b.c50 : ℚ) := by exact_mod_cast hi
    have h1 : (o.dims.triangleWidth + o.triangle.padding) * ((i : ℚ) + 1) ≤
        (o.dims.triangleWidth + o.triangle.padding) * (b.c50 : ℚ) :=
      mul_le_mul_of_nonneg_left hi' (by linarith)
    have h2 : 0 ≤ (j : ℚ) * (o.bar.width + o.bar.padding) :=
      mul_nonneg (Nat.cast_nonneg j) (by linarith)
    nlinarith [h1, h2]
  · intro i k hi hk
    unfold barX triangleX rightHalf right50
    have hi' : (i : ℚ) + 1 ≤ (b.c50 : ℚ) := by exact_mod_cast hi
    have h1 : (o.dims.triangleWidth + o.triangle.padding) * ((i : ℚ) + 1) ≤
        (o.dims.triangleWidth + o.triangle.padding) * (b.c50 : ℚ) :=
      mul_le_mul_of_nonneg_left hi' (by linarith)
    have h2 : 0 ≤ (k : ℚ) * (o.bar.width + o.bar.padding) :=
      mul_nonneg (Nat.cast_nonneg k) (by linarith)
    have h3 : 0 ≤ (b.c10 : ℚ) * (o.bar.padding + o.bar.width) :=
      mul_nonneg (Nat.cast_nonneg b.c10) (by linarith)
    nlinarith [h1, h2, h3]
  · intro j k hj hk
    unfold barX rightHalf right50
    have hj' : (j : ℚ) + 1 ≤ (b.c10 : ℚ) := by exact_mod_cast hj
    have h1 : ((j : ℚ) + 1) * (o.bar.width + o.bar.padding) ≤
        (b.c10 : ℚ) * (o.bar.width + o.bar.padding) :=
      mul_le_mul_of_nonneg_right hj' (by linarith)
    have h2 : 0 ≤ (k : ℚ) * (o.bar.width + o.bar.padding) :=
      mul_nonneg (Nat.cast_nonneg k) (by linarith)
    nlinarith [h1, h2]

/-- Witness for C7 with the default merged configuration and counts
`(1, 3, 1)`. -/
theorem segment_layout_witness :
    0 < (mergeOptions {} ⟨33, 1, 2⟩).triangle.padding ∧
    0 < (mergeOptions {} ⟨33, 1, 2⟩).bar.padding ∧
    0 ≤ (mergeOptions {} ⟨33, 1, 2⟩).dims.triangleWidth ∧
    0 ≤ (mergeOptions {} ⟨33, 1, 2⟩).bar.width ∧
    (right50 (mergeOptions {} ⟨33, 1, 2⟩) ⟨1, 3, 1⟩ =
      (⟨1, 3, 1⟩ : Barbs).c50 * ((mergeOptions {} ⟨33, 1, 2⟩).dims.triangleWidth +
        (mergeOptions {} ⟨33, 1, 2⟩).triangle.padding) ∧
    rightHalf (mergeOptions {} ⟨33, 1, 2⟩) ⟨1, 3, 1⟩ =
      right50 (mergeOptions {} ⟨33, 1, 2⟩) ⟨1, 3, 1⟩ +
        (⟨1, 3, 1⟩ : Barbs).c10 * ((mergeOptions {} ⟨33, 1, 2⟩).bar.padding +
          (mergeOptions {} ⟨33, 1, 2⟩).bar.width) ∧
    (∀ i j : ℕ, i < j → triangleX (mergeOptions {} ⟨33, 1, 2⟩) j <
      triangleX (mergeOptions {} ⟨33, 1, 2⟩) i -
        (mergeOptions {} ⟨33, 1, 2⟩).dims.triangleWidth) ∧
    (∀ r : ℚ, ∀ i j : ℕ, i < j → barX (mergeOptions {} ⟨33, 1, 2⟩) r j <
      barX (mergeOptions {} ⟨33, 1, 2⟩) r i) ∧
    (∀ i j : ℕ, i < (⟨1, 3, 1⟩ : Barbs).c50 → j < (⟨1, 3, 1⟩ : Barbs).c10 →
      barX (mergeOptions {} ⟨33, 1, 2⟩) (right50 (mergeOptions {} ⟨33, 1, 2⟩) ⟨1, 3, 1⟩) j <
        triangleX (mergeOptions {} ⟨33, 1, 2⟩) i -
          (mergeOptions {} ⟨33, 1, 2⟩).dims.triangleWidth) ∧
    (∀ i k : ℕ, i < (⟨1, 3, 1⟩ : Barbs).c50 → k < (⟨1, 3, 1⟩ : Barbs).c5 →
      barX (mergeOptions {} ⟨33, 1, 2⟩) (rightHalf (mergeOptions {} ⟨33, 1, 2⟩) ⟨1, 3, 1⟩) k <
        triangleX (mergeOptions {} ⟨33, 1, 2⟩) i -
          (mergeOptions {} ⟨33, 1, 2⟩).dims.triangleWidth) ∧
    (∀ j k : ℕ, j < (⟨1, 3, 1⟩ : Barbs).c10 → k < (⟨1, 3, 1⟩ : Barbs).c5 →
      barX (mergeOptions {} ⟨33, 1, 2⟩) (rightHalf (mergeOptions {} ⟨33, 1, 2⟩) ⟨1, 3, 1⟩) k <
        barX (mergeOptions {} ⟨33, 1, 2⟩) (right50 (mergeOptions {} ⟨33, 1, 2⟩) ⟨1, 3, 1⟩) j)) := by
  have h1 : 0 < (mergeOptions {} ⟨33, 1, 2⟩).triangle.padding := by
    show (0 : ℚ) < 6
    norm_num
  have h2 : 0 < (mergeOptions {} ⟨33, 1, 2⟩).bar.padding := by
    show (0 : ℚ) < 6
    norm_num
  have h3 : 0 ≤ (mergeOptions {} ⟨33, 1, 2⟩).dims.triangleWidth := by
    show (0 : ℚ) ≤ 2
    norm_num
  have h4 : 0 ≤ (mergeOptions {} ⟨33, 1, 2⟩).bar.width := by
    show (0 : ℚ) ≤ 2
    norm_num
  exact ⟨h1, h2, h3, h4, segment_layout (mergeOptions {} ⟨33, 1, 2⟩) ⟨1, 3, 1⟩ h1 h2 h3 h4⟩

end WindBarbs
